import Mathlib

/-!
# Build operations of the Concourse client (`concourse/builds.go`, `concourse/client.go`)

A shallow embedding of the client methods `CreateBuild`, `CreateJobBuild`, `JobBuild`,
`Build`, `Builds`, `AbortBuild` and `FindTeam`.

* Go's `error` interface is `Option Error` (`none` is `nil`); a type switch or type
  assertion on the dynamic type is a match on the constructor of `Error`.
* A pointer handed to `connection.Send` is modelled by state passing: the `Response`
  given to `Send` holds the current contents of the targets, and `Send` returns the
  contents after the call.
* `connection.Send` is an interface method whose implementation is not part of these
  files; it is a field of `Connection`, an arbitrary function of the history of the
  connection, the request and the response targets.  Every invocation is appended to
  a trace, so that "was `Send` invoked" is a property of the trace.
-/

namespace concourse

/-! ## Data model -/

/-- Go maps with string keys and string values (`rata.Params`), as association lists in
the order of the map literal; the nil map is `[]`. -/
abbrev Params := List (String × String)

/-- Multi-valued string maps (`url.Values`, `http.Header`). -/
abbrev Values := List (String × List String)

/-- The type `http.Header`. -/
abbrev Header := Values

/-- Values of Go's `error` interface other than `nil`, by dynamic type.
Modelled from the spec: the error types `ResourceNotFoundError` and
`UnexpectedResponseError` (with its `StatusCode`) are declared outside these files; every
value carries the text its `Error()` method returns. -/
inductive Error where
  /-- Dynamic type `ResourceNotFoundError`. -/
  | ResourceNotFoundError (msg : String)
  /-- Dynamic type `UnexpectedResponseError`, with its field `StatusCode`. -/
  | UnexpectedResponseError (StatusCode : Int) (Status : String) (Body : String) (msg : String)
  /-- What `errors.New` and `fmt.Errorf` build. -/
  | errorString (s : String)
  /-- Any other dynamic type (transport failure, forbidden, decode failure, ...). -/
  | other (dynType : String) (msg : String)
  deriving DecidableEq, Repr

set_option linter.dupNamespace false in
/-- The method `Error()` of an error value. -/
def Error.Error : Error → String
  | .ResourceNotFoundError msg => msg
  | .UnexpectedResponseError _ _ _ msg => msg
  | .errorString s => s
  | .other _ msg => msg

/-- Modelled from the spec: `NameRequiredError(thing)`, declared outside these files, is the
"<thing> name required" condition. -/
def NameRequiredError (thing : String) : Error :=
  .errorString (thing ++ " name required")

/-- The constant `http.StatusNotFound`. -/
def http.StatusNotFound : Int := 404

namespace atc

/-- Modelled from the spec: the struct `atc.Build`, declared outside these files; its zero
value has every field zero. -/
structure Build where
  ID : Int := 0
  TeamName : String := ""
  Name : String := ""
  Status : String := ""
  JobName : String := ""
  APIURL : String := ""
  PipelineName : String := ""
  StartTime : Int := 0
  EndTime : Int := 0
  deriving DecidableEq, Repr

/-- Modelled from the spec: the struct `atc.Team`, declared outside these files. -/
structure Team where
  ID : Int := 0
  Name : String := ""
  Auth : Values := []
  deriving DecidableEq, Repr

/-- Route name constants of package `atc` (declared outside these files). -/
def CreateBuild : String := "CreateBuild"
/-- Route name of the create-job-build operation. -/
def CreateJobBuild : String := "CreateJobBuild"
/-- Route name of the get-job-build operation. -/
def GetJobBuild : String := "GetJobBuild"
/-- Route name of the get-build operation. -/
def GetBuild : String := "GetBuild"
/-- Route name of the list-builds operation. -/
def ListBuilds : String := "ListBuilds"
/-- Route name of the abort-build operation. -/
def AbortBuild : String := "AbortBuild"
/-- Route name of the get-team operation. -/
def GetTeam : String := "GetTeam"

end atc

/-- The zero value of `atc.Build` (`var build atc.Build`, `atc.Build{}`). -/
def zeroBuild : atc.Build := {}

/-- The zero value of `atc.Team` (`var atcTeam atc.Team`). -/
def zeroTeam : atc.Team := {}

/-- The struct `Request` handed to `connection.Send`.  `Body` is the content of the reader
(`none` is the nil reader); unset fields are zero. -/
structure Request where
  RequestName : String := ""
  Params : Params := []
  Query : Values := []
  Header : Header := []
  Body : Option String := none
  deriving DecidableEq, Repr

/-- What the pointer stored in `Response.Result` points at, by type of the target.
A slice is `Option (List _)`: `none` is the nil slice. -/
inductive ResultTarget where
  | build (b : atc.Build)
  | builds (bs : Option (List atc.Build))
  | team (t : atc.Team)
  deriving DecidableEq, Repr

/-- The struct `Response`: `Result` is the decode target (`none`: no target) and `Headers`
the header target (`none`: nil pointer), each with the current contents of what it points
at. -/
structure Response where
  Result : Option ResultTarget := none
  Headers : Option Header := none
  deriving DecidableEq, Repr

/-- The struct `Page`. -/
structure Page where
  Since : Int := 0
  Until : Int := 0
  Limit : Int := 0
  deriving DecidableEq, Repr

/-- The struct `Pagination`; its zero value `Pagination{}` has two nil pointers. -/
structure Pagination where
  Previous : Option Page := none
  Next : Option Page := none
  deriving DecidableEq, Repr

/-- The value `Pagination{}`. -/
def zeroPagination : Pagination := {}

/-- What a call observes of the outside: an invocation of `connection.Send` with its two
arguments, or a consultation of `paginationFromHeaders` with its argument. -/
inductive Event where
  | send (request : Request) (response : Option Response)
  | paginationFromHeaders (headers : Header)
  deriving DecidableEq, Repr

/-- The history of a connection. -/
abbrev Trace := List Event

/-- The number of invocations of `connection.Send` in a trace. -/
def sendCount : Trace → Nat
  | [] => 0
  | .send _ _ :: rest => sendCount rest + 1
  | .paginationFromHeaders _ :: rest => sendCount rest

/-- The interface `Connection`, reduced to its method `Send`: from the history so far, the
request and the response targets, `respond` gives the returned error and the contents of
the targets after the call. -/
structure Connection where
  respond : Trace → Request → Option Response → Option Error × Option Response

/-- An invocation `connection.Send(request, response)`: the connection responds and the
invocation is recorded. -/
def Connection.Send (connection : Connection) (request : Request)
    (response : Option Response) (tr : Trace) :
    (Option Error × Option Response) × Trace :=
  (connection.respond tr request response, tr ++ [Event.send request response])

/-- The struct `client`. -/
structure client where
  connection : Connection

/-- The struct `team` that `FindTeam` builds. -/
structure team where
  name : String
  connection : Connection
  auth : Values

/-- Reading the variable `build` after `Send` was given `&build`: the build the target
holds now; a target that holds no build leaves the variable as it was. -/
def readBuild (build : atc.Build) : Option Response → atc.Build
  | some { Result := some (.build b), .. } => b
  | _ => build

/-- Reading the variable `builds` after `Send` was given `&builds`. -/
def readBuilds (builds : Option (List atc.Build)) : Option Response → Option (List atc.Build)
  | some { Result := some (.builds bs), .. } => bs
  | _ => builds

/-- Reading the variable `headers` after `Send` was given `&headers`. -/
def readHeaders (headers : Header) : Option Response → Header
  | some { Headers := some h, .. } => h
  | _ => headers

/-- Reading the variable `atcTeam` after `Send` was given `&atcTeam`. -/
def readTeam (t : atc.Team) : Option Response → atc.Team
  | some { Result := some (.team u), .. } => u
  | _ => t

/-! ## Operations (`builds.go`) -/

/-- The method `CreateBuild`.  `Encode plan` stands for `json.NewEncoder(buffer).Encode(plan)`:
the content of the buffer afterwards and the error. -/
def client.CreateBuild {Plan : Type} (Encode : Plan → String × Option Error)
    (cl : client) (plan : Plan) (tr : Trace) : (atc.Build × Option Error) × Trace :=
  let build : atc.Build := zeroBuild
  let (buffer, err) := Encode plan
  match err with
  | some e => ((build, some (.errorString ("Unable to marshal plan: " ++ e.Error))), tr)
  | none =>
    let ((err, out), tr1) := cl.connection.Send
      { RequestName := atc.CreateBuild
        Body := some buffer
        Header := [("Content-Type", ["application/json"])] }
      (some { Result := some (.build build) }) tr
    let build := readBuild build out
    match err with
    | some (.UnexpectedResponseError StatusCode _ _ _) =>
      if StatusCode = http.StatusNotFound then
        ((build, some (.errorString "build not found")), tr1)
      else
        ((build, err), tr1)
    | _ => ((build, err), tr1)

/-- The method `CreateJobBuild`. -/
def client.CreateJobBuild (cl : client) (pipelineName : String) (jobName : String)
    (tr : Trace) : (atc.Build × Option Error) × Trace :=
  let params : Params := [("job_name", jobName), ("pipeline_name", pipelineName)]
  let build : atc.Build := zeroBuild
  let ((err, out), tr1) := cl.connection.Send
    { RequestName := atc.CreateJobBuild
      Params := params }
    (some { Result := some (.build build) }) tr
  let build := readBuild build out
  ((build, err), tr1)

/-- The method `JobBuild`. -/
def client.JobBuild (cl : client) (pipelineName jobName buildName : String)
    (tr : Trace) : (atc.Build × Bool × Option Error) × Trace :=
  if pipelineName = "" then
    ((zeroBuild, false, some (NameRequiredError "pipeline")), tr)
  else
    let params : Params :=
      [("job_name", jobName), ("build_name", buildName), ("pipeline_name", pipelineName)]
    let build : atc.Build := zeroBuild
    let ((err, out), tr1) := cl.connection.Send
      { RequestName := atc.GetJobBuild
        Params := params }
      (some { Result := some (.build build) }) tr
    let build := readBuild build out
    match err with
    | none => ((build, true, none), tr1)
    | some (.ResourceNotFoundError _) => ((build, false, none), tr1)
    | some e => ((build, false, some e), tr1)

/-- The method `Build`. -/
def client.Build (cl : client) (buildID : String)
    (tr : Trace) : (atc.Build × Bool × Option Error) × Trace :=
  let params : Params := [("build_id", buildID)]
  let build : atc.Build := zeroBuild
  let ((err, out), tr1) := cl.connection.Send
    { RequestName := atc.GetBuild
      Params := params }
    (some { Result := some (.build build) }) tr
  let build := readBuild build out
  match err with
  | none => ((build, true, none), tr1)
  | some (.ResourceNotFoundError _) => ((build, false, none), tr1)
  | some e => ((build, false, some e), tr1)

/-- The method `Builds`.  `QueryParams` stands for the method `Page.QueryParams` and
`paginationFromHeaders` for the function of that name, both declared outside these
files. -/
def client.Builds (QueryParams : Page → Values)
    (paginationFromHeaders : Header → Pagination × Option Error)
    (cl : client) (page : Page) (tr : Trace) :
    (Option (List atc.Build) × Pagination × Option Error) × Trace :=
  let builds : Option (List atc.Build) := none
  let headers : Header := []
  let ((err, out), tr1) := cl.connection.Send
    { RequestName := atc.ListBuilds
      Query := QueryParams page }
    (some { Result := some (.builds builds), Headers := some headers }) tr
  let builds := readBuilds builds out
  let headers := readHeaders headers out
  match err with
  | none =>
    let (pagination, err) := paginationFromHeaders headers
    let tr2 := tr1 ++ [Event.paginationFromHeaders headers]
    match err with
    | some e => ((none, zeroPagination, some e), tr2)
    | none => ((builds, pagination, none), tr2)
  | some e => ((none, zeroPagination, some e), tr1)

/-- The method `AbortBuild`. -/
def client.AbortBuild (cl : client) (buildID : String) (tr : Trace) : Option Error × Trace :=
  let params : Params := [("build_id", buildID)]
  let ((err, _), tr1) := cl.connection.Send
    { RequestName := atc.AbortBuild
      Params := params }
    none tr
  (err, tr1)

/-! ## Operations (`client.go`) -/

/-- The method `FindTeam`; the returned `Team` is `none` for the nil interface. -/
def client.FindTeam (cl : client) (teamName : String) (tr : Trace) :
    (Option team × Option Error) × Trace :=
  let atcTeam : atc.Team := zeroTeam
  let ((err, out), tr1) := cl.connection.Send
    { RequestName := atc.GetTeam
      Params := [("team_name", teamName)] }
    (some { Result := some (.team atcTeam) }) tr
  let atcTeam := readTeam atcTeam out
  match err with
  | some e => ((none, some e), tr1)
  | none => ((some { name := atcTeam.Name, connection := cl.connection, auth := atcTeam.Auth }, none), tr1)

/-! ## Connections used to evaluate the operations on concrete inputs -/

/-- A server that knows no resource: every `Send` fails with a `ResourceNotFoundError`
and leaves the targets as they are. -/
def absentConnection : Connection where
  respond := fun _ _ response => (some (.ResourceNotFoundError "resource not found"), response)

/-- A server that answers every request with build 42 of job "unit" (and no headers). -/
def servingConnection : Connection where
  respond := fun _ _ response =>
    match response with
    | some r => (none, some { r with Result := some (.build { ID := 42, Name := "7", JobName := "unit" }) })
    | none => (none, none)

/-- A transport that cannot connect: every `Send` fails with a transport error and leaves
the targets as they are. -/
def refusedConnection : Connection where
  respond := fun _ _ response => (some (.other "*url.Error" "connection refused"), response)

/-- A server whose response breaks off while it is decoded: `Send` has written the part
it read into the build target and fails with the decoder's error. -/
def truncatedConnection : Connection where
  respond := fun _ _ response =>
    match response with
    | some r => (some (.other "*json.SyntaxError" "unexpected end of JSON input"),
        some { r with Result := some (.build { ID := 7 }) })
    | none => (some (.other "*json.SyntaxError" "unexpected end of JSON input"), none)

/-- A small plan type to evaluate `CreateBuild` on. -/
inductive SamplePlan where
  | task (name : String)
  | unencodable
  deriving DecidableEq, Repr

/-- An encoder for `SamplePlan`: a task is encoded as a quoted string and a line break,
the other plan is refused. -/
def encodeSamplePlan : SamplePlan → String × Option Error
  | .task name => ("\"" ++ name ++ "\"\n", none)
  | .unencodable => ("", some (.other "*json.UnsupportedTypeError" "json: unsupported type"))

/-- A `QueryParams` to evaluate `Builds` on: only a positive limit of 2 is rendered. -/
def sampleQueryParams (page : Page) : Values :=
  if page.Limit = 2 then [("limit", ["2"])] else []

/-- A `paginationFromHeaders` to evaluate `Builds` on: no header is the terminal page, the
header `Next: 5` announces a next page since 5, anything else is malformed. -/
def samplePaginationFromHeaders : Header → Pagination × Option Error
  | [] => ({}, none)
  | [("Next", ["5"])] => ({ Next := some { Since := 5, Limit := 2 } }, none)
  | _ => ({ Previous := some {} }, some (.errorString "malformed pagination header"))

/-- A server that lists two builds and announces a next page. -/
def listingConnection : Connection where
  respond := fun _ _ response =>
    match response with
    | some _ => (none, some { Result := some (.builds (some [{ ID := 2 }, { ID := 1 }])),
                              Headers := some [("Next", ["5"])] })
    | none => (none, none)

/-- A server that lists two builds under a pagination header that cannot be parsed. -/
def garbledConnection : Connection where
  respond := fun _ _ response =>
    match response with
    | some _ => (none, some { Result := some (.builds (some [{ ID := 2 }, { ID := 1 }])),
                              Headers := some [("Next", ["five"])] })
    | none => (none, none)

/-- A server that answers every request with status 404, which the connection reports as
an `UnexpectedResponseError`; the targets are left as they are. -/
def unexpected404Connection : Connection where
  respond := fun _ _ response =>
    (some (.UnexpectedResponseError 404 "404 Not Found" "" "Unexpected Response"), response)

/-- A server that answers every request with status 500; the targets are left as they
are. -/
def unexpected500Connection : Connection where
  respond := fun _ _ response =>
    (some (.UnexpectedResponseError 500 "500 Internal Server Error" "oops"
      "Unexpected Response"), response)

/-- A server that answers every request with the team "main" and its auth settings. -/
def teamConnection : Connection where
  respond := fun _ _ response =>
    match response with
    | some r => (none, some { r with
        Result := some (.team { ID := 1, Name := "main", Auth := [("owner", ["local:admin"])] }) })
    | none => (none, none)

end concourse

namespace concourse

/-! ## Reading the targets back -/

theorem readBuild_build (z b : atc.Build) (h : Option Header) :
    readBuild z (some { Result := some (.build b), Headers := h }) = b := rfl

/-! ## `JobBuild` and `Build` -/

/-- C1: for every jobName and buildName, `JobBuild("", jobName, buildName)` returns the zero
Build, found = false and the error `NameRequiredError("pipeline")`, and the trace is left
as it was: `connection.Send` is not invoked. -/
theorem JobBuild_empty_pipeline (cl : client) (jobName buildName : String) (tr : Trace) :
    cl.JobBuild "" jobName buildName tr
      = ((zeroBuild, false, some (NameRequiredError "pipeline")), tr) := by
  simp [client.JobBuild]

/-- C2: when `connection.Send` returns a `ResourceNotFoundError`, `Build` (for every
buildID) and `JobBuild` (for every non-empty pipeline name) return found = false and a nil
error. -/
theorem notFound_is_flag_not_error (cl : client) (tr : Trace)
    (buildID pipelineName jobName buildName msg : String) :
    ((cl.connection.respond tr
          { RequestName := atc.GetBuild, Params := [("build_id", buildID)] }
          (some { Result := some (.build zeroBuild) })).1
        = some (.ResourceNotFoundError msg) →
      (cl.Build buildID tr).1.2 = (false, none))
    ∧ (pipelineName ≠ "" →
      (cl.connection.respond tr
          { RequestName := atc.GetJobBuild,
            Params := [("job_name", jobName), ("build_name", buildName),
                       ("pipeline_name", pipelineName)] }
          (some { Result := some (.build zeroBuild) })).1
        = some (.ResourceNotFoundError msg) →
      (cl.JobBuild pipelineName jobName buildName tr).1.2 = (false, none)) := by
  constructor
  · intro h
    simp [client.Build, Connection.Send, h]
  · intro hp h
    simp [client.JobBuild, Connection.Send, hp, h]

theorem notFound_is_flag_not_error_witness :
    (client.Build ⟨absentConnection⟩ "404" []).1.2 = (false, none)
    ∧ (client.JobBuild ⟨absentConnection⟩ "main" "unit" "7" []).1.2 = (false, none) :=
  ⟨(notFound_is_flag_not_error ⟨absentConnection⟩ [] "404" "main" "unit" "7"
      "resource not found").1 rfl,
   (notFound_is_flag_not_error ⟨absentConnection⟩ [] "404" "main" "unit" "7"
      "resource not found").2 (by decide) rfl⟩

end concourse

namespace concourse

/-- The three ways `Build` ends, by the error of its one `Send`. -/
theorem Build_eq (cl : client) (buildID : String) (tr : Trace) :
    cl.Build buildID tr =
      (match (cl.connection.respond tr
          { RequestName := atc.GetBuild, Params := [("build_id", buildID)] }
          (some { Result := some (.build zeroBuild) })).1 with
        | none => (readBuild zeroBuild (cl.connection.respond tr
              { RequestName := atc.GetBuild, Params := [("build_id", buildID)] }
              (some { Result := some (.build zeroBuild) })).2, true, none)
        | some (.ResourceNotFoundError _) => (readBuild zeroBuild (cl.connection.respond tr
              { RequestName := atc.GetBuild, Params := [("build_id", buildID)] }
              (some { Result := some (.build zeroBuild) })).2, false, none)
        | some e => (readBuild zeroBuild (cl.connection.respond tr
              { RequestName := atc.GetBuild, Params := [("build_id", buildID)] }
              (some { Result := some (.build zeroBuild) })).2, false, some e),
       tr ++ [Event.send
          { RequestName := atc.GetBuild, Params := [("build_id", buildID)] }
          (some { Result := some (.build zeroBuild) })]) := by
  simp only [client.Build, Connection.Send]
  split <;> rfl

/-- The three ways `JobBuild` ends once the pipeline name is accepted. -/
theorem JobBuild_eq (cl : client) (pipelineName jobName buildName : String) (tr : Trace)
    (hp : pipelineName ≠ "") :
    cl.JobBuild pipelineName jobName buildName tr =
      (match (cl.connection.respond tr
          { RequestName := atc.GetJobBuild,
            Params := [("job_name", jobName), ("build_name", buildName),
                       ("pipeline_name", pipelineName)] }
          (some { Result := some (.build zeroBuild) })).1 with
        | none => (readBuild zeroBuild (cl.connection.respond tr
              { RequestName := atc.GetJobBuild,
                Params := [("job_name", jobName), ("build_name", buildName),
                           ("pipeline_name", pipelineName)] }
              (some { Result := some (.build zeroBuild) })).2, true, none)
        | some (.ResourceNotFoundError _) => (readBuild zeroBuild (cl.connection.respond tr
              { RequestName := atc.GetJobBuild,
                Params := [("job_name", jobName), ("build_name", buildName),
                           ("pipeline_name", pipelineName)] }
              (some { Result := some (.build zeroBuild) })).2, false, none)
        | some e => (readBuild zeroBuild (cl.connection.respond tr
              { RequestName := atc.GetJobBuild,
                Params := [("job_name", jobName), ("build_name", buildName),
                           ("pipeline_name", pipelineName)] }
              (some { Result := some (.build zeroBuild) })).2, false, some e),
       tr ++ [Event.send
          { RequestName := atc.GetJobBuild,
            Params := [("job_name", jobName), ("build_name", buildName),
                       ("pipeline_name", pipelineName)] }
          (some { Result := some (.build zeroBuild) })]) := by
  simp only [client.JobBuild, Connection.Send, if_neg hp]
  split <;> rfl

/-- C3: for `Build`, and for `JobBuild` with a non-empty pipeline name: found is true if and
only if `connection.Send` returned a nil error, and whenever found is true the returned
error is nil and the returned Build is the content of the result target after `Send`
(the build `Send` wrote there). -/
theorem found_iff_send_ok (cl : client) (tr : Trace)
    (buildID pipelineName jobName buildName : String) (hp : pipelineName ≠ "") :
    (((cl.Build buildID tr).1.2.1 = true ↔
        (cl.connection.respond tr
          { RequestName := atc.GetBuild, Params := [("build_id", buildID)] }
          (some { Result := some (.build zeroBuild) })).1 = none)
      ∧ ((cl.Build buildID tr).1.2.1 = true →
          (cl.Build buildID tr).1.2.2 = none
          ∧ (cl.Build buildID tr).1.1
              = readBuild zeroBuild (cl.connection.respond tr
                  { RequestName := atc.GetBuild, Params := [("build_id", buildID)] }
                  (some { Result := some (.build zeroBuild) })).2
          ∧ ∀ b h, (cl.connection.respond tr
                  { RequestName := atc.GetBuild, Params := [("build_id", buildID)] }
                  (some { Result := some (.build zeroBuild) })).2
                = some { Result := some (.build b), Headers := h } →
              (cl.Build buildID tr).1.1 = b))
    ∧ (((cl.JobBuild pipelineName jobName buildName tr).1.2.1 = true ↔
        (cl.connection.respond tr
          { RequestName := atc.GetJobBuild,
            Params := [("job_name", jobName), ("build_name", buildName),
                       ("pipeline_name", pipelineName)] }
          (some { Result := some (.build zeroBuild) })).1 = none)
      ∧ ((cl.JobBuild pipelineName jobName buildName tr).1.2.1 = true →
          (cl.JobBuild pipelineName jobName buildName tr).1.2.2 = none
          ∧ (cl.JobBuild pipelineName jobName buildName tr).1.1
              = readBuild zeroBuild (cl.connection.respond tr
                  { RequestName := atc.GetJobBuild,
                    Params := [("job_name", jobName), ("build_name", buildName),
                               ("pipeline_name", pipelineName)] }
                  (some { Result := some (.build zeroBuild) })).2
          ∧ ∀ b h, (cl.connection.respond tr
                  { RequestName := atc.GetJobBuild,
                    Params := [("job_name", jobName), ("build_name", buildName),
                               ("pipeline_name", pipelineName)] }
                  (some { Result := some (.build zeroBuild) })).2
                = some { Result := some (.build b), Headers := h } →
              (cl.JobBuild pipelineName jobName buildName tr).1.1 = b)) := by
  refine ⟨?_, ?_⟩
  · rw [Build_eq]
    generalize cl.connection.respond tr
        { RequestName := atc.GetBuild, Params := [("build_id", buildID)] }
        (some { Result := some (.build zeroBuild) }) = s
    obtain ⟨e, out⟩ := s
    cases e with
    | none =>
      refine ⟨by simp, fun _ => ⟨rfl, rfl, ?_⟩⟩
      intro b h hout
      simp only at hout
      subst hout
      rfl
    | some e => cases e <;> simp
  · rw [JobBuild_eq cl pipelineName jobName buildName tr hp]
    generalize cl.connection.respond tr
        { RequestName := atc.GetJobBuild,
          Params := [("job_name", jobName), ("build_name", buildName),
                     ("pipeline_name", pipelineName)] }
        (some { Result := some (.build zeroBuild) }) = s
    obtain ⟨e, out⟩ := s
    cases e with
    | none =>
      refine ⟨by simp, fun _ => ⟨rfl, rfl, ?_⟩⟩
      intro b h hout
      simp only at hout
      subst hout
      rfl
    | some e => cases e <;> simp

theorem found_iff_send_ok_witness :
    "main" ≠ ""
    ∧ (client.Build ⟨servingConnection⟩ "42" []).1
        = ({ ID := 42, Name := "7", JobName := "unit" }, true, none)
    ∧ (client.JobBuild ⟨servingConnection⟩ "main" "unit" "7" []).1.1
        = { ID := 42, Name := "7", JobName := "unit" } :=
  ⟨by decide, rfl,
   ((found_iff_send_ok ⟨servingConnection⟩ [] "42" "main" "unit" "7" (by decide)).2.2
      rfl).2.2 _ _ rfl⟩

/-- C4: for `Build`, and for `JobBuild` with a non-empty pipeline name: a non-nil error of
`connection.Send` that is not a `ResourceNotFoundError` is returned as that same error
value, with found = false. -/
theorem other_errors_pass_through (cl : client) (tr : Trace)
    (buildID pipelineName jobName buildName : String) (e : Error)
    (he : ∀ msg, e ≠ .ResourceNotFoundError msg) :
    ((cl.connection.respond tr
          { RequestName := atc.GetBuild, Params := [("build_id", buildID)] }
          (some { Result := some (.build zeroBuild) })).1 = some e →
      (cl.Build buildID tr).1.2 = (false, some e))
    ∧ (pipelineName ≠ "" →
      (cl.connection.respond tr
          { RequestName := atc.GetJobBuild,
            Params := [("job_name", jobName), ("build_name", buildName),
                       ("pipeline_name", pipelineName)] }
          (some { Result := some (.build zeroBuild) })).1 = some e →
      (cl.JobBuild pipelineName jobName buildName tr).1.2 = (false, some e)) := by
  constructor
  · intro h
    rw [Build_eq, h]
    cases e with
    | ResourceNotFoundError msg => exact absurd rfl (he msg)
    | _ => rfl
  · intro hp h
    rw [JobBuild_eq cl pipelineName jobName buildName tr hp, h]
    cases e with
    | ResourceNotFoundError msg => exact absurd rfl (he msg)
    | _ => rfl

theorem other_errors_pass_through_witness :
    (client.Build ⟨refusedConnection⟩ "1" []).1.2
        = (false, some (.other "*url.Error" "connection refused"))
    ∧ (client.JobBuild ⟨refusedConnection⟩ "main" "unit" "7" []).1.2
        = (false, some (.other "*url.Error" "connection refused")) :=
  ⟨(other_errors_pass_through ⟨refusedConnection⟩ [] "1" "main" "unit" "7"
      (.other "*url.Error" "connection refused") (by intro msg h; cases h)).1 rfl,
   (other_errors_pass_through ⟨refusedConnection⟩ [] "1" "main" "unit" "7"
      (.other "*url.Error" "connection refused") (by intro msg h; cases h)).2 (by decide) rfl⟩

end concourse

namespace concourse

/-! ## `CreateBuild` -/

/-- How `CreateBuild` ends once the plan is encoded. -/
theorem CreateBuild_eq {Plan : Type} (Encode : Plan → String × Option Error)
    (cl : client) (plan : Plan) (tr : Trace) (henc : (Encode plan).2 = none) :
    cl.CreateBuild Encode plan tr =
      (match (cl.connection.respond tr
          { RequestName := atc.CreateBuild, Body := some (Encode plan).1,
            Header := [("Content-Type", ["application/json"])] }
          (some { Result := some (.build zeroBuild) })).1 with
        | some (.UnexpectedResponseError StatusCode _ _ _) =>
          if StatusCode = http.StatusNotFound then
            (readBuild zeroBuild (cl.connection.respond tr
              { RequestName := atc.CreateBuild, Body := some (Encode plan).1,
                Header := [("Content-Type", ["application/json"])] }
              (some { Result := some (.build zeroBuild) })).2,
             some (.errorString "build not found"))
          else
            (readBuild zeroBuild (cl.connection.respond tr
              { RequestName := atc.CreateBuild, Body := some (Encode plan).1,
                Header := [("Content-Type", ["application/json"])] }
              (some { Result := some (.build zeroBuild) })).2,
             (cl.connection.respond tr
              { RequestName := atc.CreateBuild, Body := some (Encode plan).1,
                Header := [("Content-Type", ["application/json"])] }
              (some { Result := some (.build zeroBuild) })).1)
        | _ =>
          (readBuild zeroBuild (cl.connection.respond tr
              { RequestName := atc.CreateBuild, Body := some (Encode plan).1,
                Header := [("Content-Type", ["application/json"])] }
              (some { Result := some (.build zeroBuild) })).2,
           (cl.connection.respond tr
              { RequestName := atc.CreateBuild, Body := some (Encode plan).1,
                Header := [("Content-Type", ["application/json"])] }
              (some { Result := some (.build zeroBuild) })).1),
       tr ++ [Event.send
          { RequestName := atc.CreateBuild, Body := some (Encode plan).1,
            Header := [("Content-Type", ["application/json"])] }
          (some { Result := some (.build zeroBuild) })]) := by
  rcases hE : Encode plan with ⟨buffer, err⟩
  rw [hE] at henc
  simp only at henc
  subst henc
  simp only [client.CreateBuild, Connection.Send, hE]
  split
  · split <;> rfl
  · rfl

/-- C5: for every plan whose JSON encoding succeeds (with text `body`), `CreateBuild`
invokes `connection.Send` once, with RequestName = `atc.CreateBuild`, the body `body` and
the header Content-Type = ["application/json"], and with the build variable as result
target; when `Send` returns nil, `CreateBuild` returns the build `Send` left in the result
target together with a nil error. -/
theorem CreateBuild_dispatch {Plan : Type} (Encode : Plan → String × Option Error)
    (cl : client) (plan : Plan) (tr : Trace) (body : String)
    (henc : Encode plan = (body, none)) :
    (cl.CreateBuild Encode plan tr).2
        = tr ++ [Event.send
            { RequestName := atc.CreateBuild, Body := some body,
              Header := [("Content-Type", ["application/json"])] }
            (some { Result := some (.build zeroBuild) })]
    ∧ ((cl.connection.respond tr
            { RequestName := atc.CreateBuild, Body := some body,
              Header := [("Content-Type", ["application/json"])] }
            (some { Result := some (.build zeroBuild) })).1 = none →
        (cl.CreateBuild Encode plan tr).1
            = (readBuild zeroBuild (cl.connection.respond tr
                { RequestName := atc.CreateBuild, Body := some body,
                  Header := [("Content-Type", ["application/json"])] }
                (some { Result := some (.build zeroBuild) })).2, none)
        ∧ ∀ b h, (cl.connection.respond tr
                { RequestName := atc.CreateBuild, Body := some body,
                  Header := [("Content-Type", ["application/json"])] }
                (some { Result := some (.build zeroBuild) })).2
              = some { Result := some (.build b), Headers := h } →
            (cl.CreateBuild Encode plan tr).1 = (b, none)) := by
  have h2 : (Encode plan).2 = none := by rw [henc]
  have h1 : (Encode plan).1 = body := by rw [henc]
  rw [CreateBuild_eq Encode cl plan tr h2, h1]
  refine ⟨rfl, ?_⟩
  generalize cl.connection.respond tr
      { RequestName := atc.CreateBuild, Body := some body,
        Header := [("Content-Type", ["application/json"])] }
      (some { Result := some (.build zeroBuild) }) = s
  obtain ⟨e, out⟩ := s
  intro hs
  simp only at hs
  subst hs
  refine ⟨rfl, fun b h hout => ?_⟩
  simp only at hout
  subst hout
  rfl

theorem CreateBuild_dispatch_witness :
    encodeSamplePlan (.task "unit") = ("\"unit\"\n", none)
    ∧ client.CreateBuild encodeSamplePlan ⟨servingConnection⟩ (.task "unit") []
        = (({ ID := 42, Name := "7", JobName := "unit" }, none),
           [Event.send
              { RequestName := "CreateBuild", Body := some "\"unit\"\n",
                Header := [("Content-Type", ["application/json"])] }
              (some { Result := some (.build zeroBuild) })]) :=
  ⟨rfl, Prod.ext
    (((CreateBuild_dispatch encodeSamplePlan ⟨servingConnection⟩ (.task "unit") []
        "\"unit\"\n" rfl).2 rfl).2 _ _ rfl)
    rfl⟩

end concourse

namespace concourse

/-! ## `Builds` -/

/-- C6: for every page, when `connection.Send` returns nil and `paginationFromHeaders`
succeeds on the headers `Send` left in the header target, `Builds` returns the builds `Send`
left in the result target, a nil error and the Pagination that `paginationFromHeaders`
gives on exactly those headers; the one request carries RequestName = `atc.ListBuilds`
and Query = `page.QueryParams()`. -/
theorem Builds_success (QueryParams : Page → Values)
    (paginationFromHeaders : Header → Pagination × Option Error)
    (cl : client) (page : Page) (tr : Trace)
    (hsend : (cl.connection.respond tr
        { RequestName := atc.ListBuilds, Query := QueryParams page }
        (some { Result := some (.builds none), Headers := some [] })).1 = none)
    (hpage : (paginationFromHeaders (readHeaders [] (cl.connection.respond tr
        { RequestName := atc.ListBuilds, Query := QueryParams page }
        (some { Result := some (.builds none), Headers := some [] })).2)).2 = none) :
    cl.Builds QueryParams paginationFromHeaders page tr
      = ((readBuilds none (cl.connection.respond tr
            { RequestName := atc.ListBuilds, Query := QueryParams page }
            (some { Result := some (.builds none), Headers := some [] })).2,
          (paginationFromHeaders (readHeaders [] (cl.connection.respond tr
            { RequestName := atc.ListBuilds, Query := QueryParams page }
            (some { Result := some (.builds none), Headers := some [] })).2)).1,
          none),
         tr ++ [Event.send
                  { RequestName := atc.ListBuilds, Query := QueryParams page }
                  (some { Result := some (.builds none), Headers := some [] })]
            ++ [Event.paginationFromHeaders (readHeaders [] (cl.connection.respond tr
                  { RequestName := atc.ListBuilds, Query := QueryParams page }
                  (some { Result := some (.builds none), Headers := some [] })).2)]) := by
  simp only [client.Builds, Connection.Send, hsend]
  split
  · rename_i e he
    rw [hpage] at he
    cases he
  · rfl

theorem Builds_success_witness :
    client.Builds sampleQueryParams samplePaginationFromHeaders ⟨listingConnection⟩
        { Limit := 2 } []
      = ((some [{ ID := 2 }, { ID := 1 }], { Next := some { Since := 5, Limit := 2 } }, none),
         [Event.send { RequestName := "ListBuilds", Query := [("limit", ["2"])] }
            (some { Result := some (.builds none), Headers := some [] }),
          Event.paginationFromHeaders [("Next", ["5"])]]) :=
  Builds_success sampleQueryParams samplePaginationFromHeaders ⟨listingConnection⟩
    { Limit := 2 } [] rfl rfl

/-- C7: for every page and every non-nil error e returned by `connection.Send`, `Builds`
returns a nil build list, the zero Pagination and exactly e, and the trace gains the one
`Send` and nothing else: `paginationFromHeaders` is not consulted. -/
theorem Builds_send_error (QueryParams : Page → Values)
    (paginationFromHeaders : Header → Pagination × Option Error)
    (cl : client) (page : Page) (tr : Trace) (e : Error)
    (hsend : (cl.connection.respond tr
        { RequestName := atc.ListBuilds, Query := QueryParams page }
        (some { Result := some (.builds none), Headers := some [] })).1 = some e) :
    cl.Builds QueryParams paginationFromHeaders page tr
      = ((none, zeroPagination, some e),
         tr ++ [Event.send
                  { RequestName := atc.ListBuilds, Query := QueryParams page }
                  (some { Result := some (.builds none), Headers := some [] })]) := by
  simp only [client.Builds, Connection.Send, hsend]

theorem Builds_send_error_witness :
    client.Builds sampleQueryParams samplePaginationFromHeaders ⟨refusedConnection⟩
        { Limit := 2 } []
      = ((none, zeroPagination, some (.other "*url.Error" "connection refused")),
         [Event.send { RequestName := "ListBuilds", Query := [("limit", ["2"])] }
            (some { Result := some (.builds none), Headers := some [] })]) :=
  Builds_send_error sampleQueryParams samplePaginationFromHeaders ⟨refusedConnection⟩
    { Limit := 2 } [] (.other "*url.Error" "connection refused") rfl

/-- C8: for every page, when `connection.Send` succeeds but `paginationFromHeaders`
returns an error e on the response headers, `Builds` returns e together with a nil build
list and the zero Pagination, whatever builds `Send` decoded and whatever Pagination came
with e. -/
theorem Builds_pagination_error (QueryParams : Page → Values)
    (paginationFromHeaders : Header → Pagination × Option Error)
    (cl : client) (page : Page) (tr : Trace) (e : Error)
    (hsend : (cl.connection.respond tr
        { RequestName := atc.ListBuilds, Query := QueryParams page }
        (some { Result := some (.builds none), Headers := some [] })).1 = none)
    (hpage : (paginationFromHeaders (readHeaders [] (cl.connection.respond tr
        { RequestName := atc.ListBuilds, Query := QueryParams page }
        (some { Result := some (.builds none), Headers := some [] })).2)).2 = some e) :
    (cl.Builds QueryParams paginationFromHeaders page tr).1
      = (none, zeroPagination, some e) := by
  simp only [client.Builds, Connection.Send, hsend]
  split
  · rename_i e1 he
    rw [hpage] at he
    cases he
    rfl
  · rename_i he
    rw [hpage] at he
    cases he

theorem Builds_pagination_error_witness :
    readBuilds none (garbledConnection.respond []
        { RequestName := atc.ListBuilds, Query := sampleQueryParams { Limit := 2 } }
        (some { Result := some (.builds none), Headers := some [] })).2
      = some [{ ID := 2 }, { ID := 1 }]
    ∧ (client.Builds sampleQueryParams samplePaginationFromHeaders ⟨garbledConnection⟩
        { Limit := 2 } []).1
      = (none, zeroPagination, some (.errorString "malformed pagination header")) :=
  ⟨rfl, Builds_pagination_error sampleQueryParams samplePaginationFromHeaders
    ⟨garbledConnection⟩ { Limit := 2 } [] (.errorString "malformed pagination header")
    rfl rfl⟩

/-! ## `AbortBuild` -/

/-- C9: for every buildID, `AbortBuild` invokes `connection.Send` once, with RequestName =
`atc.AbortBuild`, Params = (build_id: buildID) and a nil Response, and returns exactly the
error `Send` returns (nil when `Send` succeeds). -/
theorem AbortBuild_eq (cl : client) (buildID : String) (tr : Trace) :
    cl.AbortBuild buildID tr
      = ((cl.connection.respond tr
            { RequestName := atc.AbortBuild, Params := [("build_id", buildID)] } none).1,
         tr ++ [Event.send
            { RequestName := atc.AbortBuild, Params := [("build_id", buildID)] } none]) :=
  rfl

end concourse

namespace concourse

/-! ## What a failed operation returns as Build -/

/-- `CreateJobBuild` returns the content of the result target and the error of its one
`Send`. -/
theorem CreateJobBuild_eq (cl : client) (pipelineName jobName : String) (tr : Trace) :
    cl.CreateJobBuild pipelineName jobName tr
      = ((readBuild zeroBuild (cl.connection.respond tr
              { RequestName := atc.CreateJobBuild,
                Params := [("job_name", jobName), ("pipeline_name", pipelineName)] }
              (some { Result := some (.build zeroBuild) })).2,
          (cl.connection.respond tr
              { RequestName := atc.CreateJobBuild,
                Params := [("job_name", jobName), ("pipeline_name", pipelineName)] }
              (some { Result := some (.build zeroBuild) })).1),
         tr ++ [Event.send
              { RequestName := atc.CreateJobBuild,
                Params := [("job_name", jobName), ("pipeline_name", pipelineName)] }
              (some { Result := some (.build zeroBuild) })]) :=
  rfl

/-- C10, as stated, fails: when `Send` writes build 7 into the result target and then
fails, each of `Build`, `JobBuild`, `CreateBuild` and `CreateJobBuild` returns a non-nil
error together with build 7, not the zero Build. -/
theorem failed_op_returns_written_build :
    ((client.Build ⟨truncatedConnection⟩ "1" []).1.2.2 ≠ none
      ∧ (client.Build ⟨truncatedConnection⟩ "1" []).1.1 = { ID := 7 }
      ∧ (client.Build ⟨truncatedConnection⟩ "1" []).1.1 ≠ zeroBuild)
    ∧ ((client.JobBuild ⟨truncatedConnection⟩ "main" "unit" "7" []).1.2.2 ≠ none
      ∧ (client.JobBuild ⟨truncatedConnection⟩ "main" "unit" "7" []).1.1 = { ID := 7 }
      ∧ (client.JobBuild ⟨truncatedConnection⟩ "main" "unit" "7" []).1.1 ≠ zeroBuild)
    ∧ ((client.CreateBuild encodeSamplePlan ⟨truncatedConnection⟩ (.task "unit") []).1.2
          ≠ none
      ∧ (client.CreateBuild encodeSamplePlan ⟨truncatedConnection⟩ (.task "unit") []).1.1
          = { ID := 7 }
      ∧ (client.CreateBuild encodeSamplePlan ⟨truncatedConnection⟩ (.task "unit") []).1.1
          ≠ zeroBuild)
    ∧ ((client.CreateJobBuild ⟨truncatedConnection⟩ "main" "unit" []).1.2 ≠ none
      ∧ (client.CreateJobBuild ⟨truncatedConnection⟩ "main" "unit" []).1.1 = { ID := 7 }
      ∧ (client.CreateJobBuild ⟨truncatedConnection⟩ "main" "unit" []).1.1 ≠ zeroBuild) := by
  refine ⟨⟨?_, rfl, ?_⟩, ⟨?_, rfl, ?_⟩, ⟨?_, rfl, ?_⟩, ⟨?_, rfl, ?_⟩⟩ <;> decide

/-- On an error, the zero Build comes back when the target was left alone: for each of
`Build`, `JobBuild`, `CreateBuild` and `CreateJobBuild`, if the operation returns a non-nil
error and the `Send` it dispatched, if it failed, left the result target at the zero
Build, then the Build returned is the zero Build. -/
theorem zero_build_of_untouched_target {Plan : Type} (Encode : Plan → String × Option Error)
    (cl : client) (tr : Trace) (plan : Plan)
    (buildID pipelineName jobName buildName : String) :
    (((cl.connection.respond tr
            { RequestName := atc.GetBuild, Params := [("build_id", buildID)] }
            (some { Result := some (.build zeroBuild) })).1 ≠ none →
        readBuild zeroBuild (cl.connection.respond tr
            { RequestName := atc.GetBuild, Params := [("build_id", buildID)] }
            (some { Result := some (.build zeroBuild) })).2 = zeroBuild) →
      (cl.Build buildID tr).1.2.2 ≠ none → (cl.Build buildID tr).1.1 = zeroBuild)
    ∧ (((cl.connection.respond tr
            { RequestName := atc.GetJobBuild,
              Params := [("job_name", jobName), ("build_name", buildName),
                         ("pipeline_name", pipelineName)] }
            (some { Result := some (.build zeroBuild) })).1 ≠ none →
        readBuild zeroBuild (cl.connection.respond tr
            { RequestName := atc.GetJobBuild,
              Params := [("job_name", jobName), ("build_name", buildName),
                         ("pipeline_name", pipelineName)] }
            (some { Result := some (.build zeroBuild) })).2 = zeroBuild) →
      (cl.JobBuild pipelineName jobName buildName tr).1.2.2 ≠ none →
      (cl.JobBuild pipelineName jobName buildName tr).1.1 = zeroBuild)
    ∧ (((cl.connection.respond tr
            { RequestName := atc.CreateBuild, Body := some (Encode plan).1,
              Header := [("Content-Type", ["application/json"])] }
            (some { Result := some (.build zeroBuild) })).1 ≠ none →
        readBuild zeroBuild (cl.connection.respond tr
            { RequestName := atc.CreateBuild, Body := some (Encode plan).1,
              Header := [("Content-Type", ["application/json"])] }
            (some { Result := some (.build zeroBuild) })).2 = zeroBuild) →
      (cl.CreateBuild Encode plan tr).1.2 ≠ none →
      (cl.CreateBuild Encode plan tr).1.1 = zeroBuild)
    ∧ (((cl.connection.respond tr
            { RequestName := atc.CreateJobBuild,
              Params := [("job_name", jobName), ("pipeline_name", pipelineName)] }
            (some { Result := some (.build zeroBuild) })).1 ≠ none →
        readBuild zeroBuild (cl.connection.respond tr
            { RequestName := atc.CreateJobBuild,
              Params := [("job_name", jobName), ("pipeline_name", pipelineName)] }
            (some { Result := some (.build zeroBuild) })).2 = zeroBuild) →
      (cl.CreateJobBuild pipelineName jobName tr).1.2 ≠ none →
      (cl.CreateJobBuild pipelineName jobName tr).1.1 = zeroBuild) := by
  refine ⟨?_, ?_, ?_, ?_⟩
  · rw [Build_eq]
    generalize cl.connection.respond tr
        { RequestName := atc.GetBuild, Params := [("build_id", buildID)] }
        (some { Result := some (.build zeroBuild) }) = s
    obtain ⟨e, out⟩ := s
    intro hkeep herr
    cases e with
    | none => exact absurd rfl herr
    | some e =>
      have hz := hkeep (by simp)
      cases e <;> exact hz
  · by_cases hp : pipelineName = ""
    · intro _ _
      subst hp
      simp [client.JobBuild]
    · rw [JobBuild_eq cl pipelineName jobName buildName tr hp]
      generalize cl.connection.respond tr
          { RequestName := atc.GetJobBuild,
            Params := [("job_name", jobName), ("build_name", buildName),
                       ("pipeline_name", pipelineName)] }
          (some { Result := some (.build zeroBuild) }) = s
      obtain ⟨e, out⟩ := s
      intro hkeep herr
      cases e with
      | none => exact absurd rfl herr
      | some e =>
        have hz := hkeep (by simp)
        cases e <;> exact hz
  · cases henc : (Encode plan).2 with
    | some e =>
      intro _ _
      rcases hE : Encode plan with ⟨buffer, err⟩
      rw [hE] at henc
      simp only at henc
      subst henc
      simp only [client.CreateBuild, hE]
    | none =>
      rw [CreateBuild_eq Encode cl plan tr henc]
      generalize cl.connection.respond tr
          { RequestName := atc.CreateBuild, Body := some (Encode plan).1,
            Header := [("Content-Type", ["application/json"])] }
          (some { Result := some (.build zeroBuild) }) = s
      obtain ⟨e, out⟩ := s
      intro hkeep herr
      cases e with
      | none => exact absurd rfl herr
      | some e =>
        have hz := hkeep (by simp)
        cases e with
        | UnexpectedResponseError code st bd msg =>
          simp only
          split <;> exact hz
        | _ => exact hz
  · rw [CreateJobBuild_eq]
    intro hkeep herr
    exact hkeep herr

/-- C10, amended: each of `Build`, `JobBuild`, `CreateBuild` and `CreateJobBuild` returns
as Build the content of the result target as its `Send` left it, whether or not it also
returns an error: the value is not reset on error.  `JobBuild` with an empty pipeline name
and `CreateBuild` with a plan that is not encoded dispatch nothing and return the zero
Build.  Hence, whenever the operation returns a non-nil error, the Build it returns is the
zero Build provided the `Send` it dispatched, if it failed, left the result target at the
zero Build. -/
theorem returned_build_is_target_content {Plan : Type}
    (Encode : Plan → String × Option Error)
    (cl : client) (tr : Trace) (plan : Plan)
    (buildID pipelineName jobName buildName : String) :
    ((cl.Build buildID tr).1.1
        = readBuild zeroBuild (cl.connection.respond tr
            { RequestName := atc.GetBuild, Params := [("build_id", buildID)] }
            (some { Result := some (.build zeroBuild) })).2
      ∧ (((cl.connection.respond tr
            { RequestName := atc.GetBuild, Params := [("build_id", buildID)] }
            (some { Result := some (.build zeroBuild) })).1 ≠ none →
          readBuild zeroBuild (cl.connection.respond tr
            { RequestName := atc.GetBuild, Params := [("build_id", buildID)] }
            (some { Result := some (.build zeroBuild) })).2 = zeroBuild) →
        (cl.Build buildID tr).1.2.2 ≠ none → (cl.Build buildID tr).1.1 = zeroBuild))
    ∧ ((pipelineName ≠ "" →
        (cl.JobBuild pipelineName jobName buildName tr).1.1
          = readBuild zeroBuild (cl.connection.respond tr
              { RequestName := atc.GetJobBuild,
                Params := [("job_name", jobName), ("build_name", buildName),
                           ("pipeline_name", pipelineName)] }
              (some { Result := some (.build zeroBuild) })).2)
      ∧ (pipelineName = "" →
        (cl.JobBuild pipelineName jobName buildName tr).1.1 = zeroBuild
        ∧ (cl.JobBuild pipelineName jobName buildName tr).2 = tr)
      ∧ (((cl.connection.respond tr
            { RequestName := atc.GetJobBuild,
              Params := [("job_name", jobName), ("build_name", buildName),
                         ("pipeline_name", pipelineName)] }
            (some { Result := some (.build zeroBuild) })).1 ≠ none →
          readBuild zeroBuild (cl.connection.respond tr
            { RequestName := atc.GetJobBuild,
              Params := [("job_name", jobName), ("build_name", buildName),
                         ("pipeline_name", pipelineName)] }
            (some { Result := some (.build zeroBuild) })).2 = zeroBuild) →
        (cl.JobBuild pipelineName jobName buildName tr).1.2.2 ≠ none →
        (cl.JobBuild pipelineName jobName buildName tr).1.1 = zeroBuild))
    ∧ (((Encode plan).2 = none →
        (cl.CreateBuild Encode plan tr).1.1
          = readBuild zeroBuild (cl.connection.respond tr
              { RequestName := atc.CreateBuild, Body := some (Encode plan).1,
                Header := [("Content-Type", ["application/json"])] }
              (some { Result := some (.build zeroBuild) })).2)
      ∧ ((Encode plan).2 ≠ none →
        (cl.CreateBuild Encode plan tr).1.1 = zeroBuild
        ∧ (cl.CreateBuild Encode plan tr).2 = tr)
      ∧ (((cl.connection.respond tr
            { RequestName := atc.CreateBuild, Body := some (Encode plan).1,
              Header := [("Content-Type", ["application/json"])] }
            (some { Result := some (.build zeroBuild) })).1 ≠ none →
          readBuild zeroBuild (cl.connection.respond tr
            { RequestName := atc.CreateBuild, Body := some (Encode plan).1,
              Header := [("Content-Type", ["application/json"])] }
            (some { Result := some (.build zeroBuild) })).2 = zeroBuild) →
        (cl.CreateBuild Encode plan tr).1.2 ≠ none →
        (cl.CreateBuild Encode plan tr).1.1 = zeroBuild))
    ∧ ((cl.CreateJobBuild pipelineName jobName tr).1.1
        = readBuild zeroBuild (cl.connection.respond tr
            { RequestName := atc.CreateJobBuild,
              Params := [("job_name", jobName), ("pipeline_name", pipelineName)] }
            (some { Result := some (.build zeroBuild) })).2
      ∧ (((cl.connection.respond tr
            { RequestName := atc.CreateJobBuild,
              Params := [("job_name", jobName), ("pipeline_name", pipelineName)] }
            (some { Result := some (.build zeroBuild) })).1 ≠ none →
          readBuild zeroBuild (cl.connection.respond tr
            { RequestName := atc.CreateJobBuild,
              Params := [("job_name", jobName), ("pipeline_name", pipelineName)] }
            (some { Result := some (.build zeroBuild) })).2 = zeroBuild) →
        (cl.CreateJobBuild pipelineName jobName tr).1.2 ≠ none →
        (cl.CreateJobBuild pipelineName jobName tr).1.1 = zeroBuild)) := by
  have hz := zero_build_of_untouched_target Encode cl tr plan buildID pipelineName jobName
    buildName
  refine ⟨⟨?_, hz.1⟩, ⟨?_, ?_, hz.2.1⟩, ⟨?_, ?_, hz.2.2.1⟩, ⟨rfl, hz.2.2.2⟩⟩
  · rw [Build_eq]
    generalize cl.connection.respond tr
        { RequestName := atc.GetBuild, Params := [("build_id", buildID)] }
        (some { Result := some (.build zeroBuild) }) = s
    obtain ⟨e, out⟩ := s
    cases e with
    | none => rfl
    | some e => cases e <;> rfl
  · intro hp
    rw [JobBuild_eq cl pipelineName jobName buildName tr hp]
    generalize cl.connection.respond tr
        { RequestName := atc.GetJobBuild,
          Params := [("job_name", jobName), ("build_name", buildName),
                     ("pipeline_name", pipelineName)] }
        (some { Result := some (.build zeroBuild) }) = s
    obtain ⟨e, out⟩ := s
    cases e with
    | none => rfl
    | some e => cases e <;> rfl
  · intro hp
    subst hp
    simp [client.JobBuild]
  · intro henc
    rw [CreateBuild_eq Encode cl plan tr henc]
    generalize cl.connection.respond tr
        { RequestName := atc.CreateBuild, Body := some (Encode plan).1,
          Header := [("Content-Type", ["application/json"])] }
        (some { Result := some (.build zeroBuild) }) = s
    obtain ⟨e, out⟩ := s
    cases e with
    | none => rfl
    | some e =>
      cases e with
      | UnexpectedResponseError code st bd msg =>
        simp only
        split <;> rfl
      | _ => rfl
  · intro henc
    rcases hE : Encode plan with ⟨buffer, err⟩
    rw [hE] at henc
    cases err with
    | none => exact absurd rfl henc
    | some e => simp [client.CreateBuild, hE]

theorem returned_build_is_target_content_witness :
    ("main" ≠ "" ∧ (encodeSamplePlan (.task "unit")).2 = none
      ∧ (encodeSamplePlan .unencodable).2 ≠ none)
    ∧ ((client.Build ⟨truncatedConnection⟩ "1" []).1.1 = { ID := 7 }
      ∧ (client.JobBuild ⟨truncatedConnection⟩ "main" "unit" "7" []).1.1 = { ID := 7 }
      ∧ (client.CreateBuild encodeSamplePlan ⟨truncatedConnection⟩ (.task "unit") []).1.1
          = { ID := 7 }
      ∧ (client.CreateJobBuild ⟨truncatedConnection⟩ "main" "unit" []).1.1 = { ID := 7 })
    ∧ ((client.JobBuild ⟨truncatedConnection⟩ "" "unit" "7" []).1.1 = zeroBuild
      ∧ (client.CreateBuild encodeSamplePlan ⟨truncatedConnection⟩ .unencodable []).1.1
          = zeroBuild)
    ∧ ((client.Build ⟨refusedConnection⟩ "1" []).1.1 = zeroBuild
      ∧ (client.JobBuild ⟨refusedConnection⟩ "main" "unit" "7" []).1.1 = zeroBuild
      ∧ (client.CreateBuild encodeSamplePlan ⟨refusedConnection⟩ (.task "unit") []).1.1
          = zeroBuild
      ∧ (client.CreateJobBuild ⟨refusedConnection⟩ "main" "unit" []).1.1 = zeroBuild) :=
  ⟨⟨by decide, rfl, by decide⟩,
   ⟨(returned_build_is_target_content encodeSamplePlan ⟨truncatedConnection⟩ []
        (.task "unit") "1" "main" "unit" "7").1.1,
    (returned_build_is_target_content encodeSamplePlan ⟨truncatedConnection⟩ []
        (.task "unit") "1" "main" "unit" "7").2.1.1 (by decide),
    (returned_build_is_target_content encodeSamplePlan ⟨truncatedConnection⟩ []
        (.task "unit") "1" "main" "unit" "7").2.2.1.1 rfl,
    (returned_build_is_target_content encodeSamplePlan ⟨truncatedConnection⟩ []
        (.task "unit") "1" "main" "unit" "7").2.2.2.1⟩,
   ⟨((returned_build_is_target_content encodeSamplePlan ⟨truncatedConnection⟩ []
        SamplePlan.unencodable "1" "" "unit" "7").2.1.2.1 rfl).1,
    ((returned_build_is_target_content encodeSamplePlan ⟨truncatedConnection⟩ []
        SamplePlan.unencodable "1" "" "unit" "7").2.2.1.2.1 (by decide)).1⟩,
   ⟨(returned_build_is_target_content encodeSamplePlan ⟨refusedConnection⟩ []
        (.task "unit") "1" "main" "unit" "7").1.2 (fun _ => rfl) (by decide),
    (returned_build_is_target_content encodeSamplePlan ⟨refusedConnection⟩ []
        (.task "unit") "1" "main" "unit" "7").2.1.2.2 (fun _ => rfl) (by decide),
    (returned_build_is_target_content encodeSamplePlan ⟨refusedConnection⟩ []
        (.task "unit") "1" "main" "unit" "7").2.2.1.2.2 (fun _ => rfl) (by decide),
    (returned_build_is_target_content encodeSamplePlan ⟨refusedConnection⟩ []
        (.task "unit") "1" "main" "unit" "7").2.2.2.2 (fun _ => rfl) (by decide)⟩⟩

end concourse

namespace concourse

/-! ## At most one `Send` per call -/

theorem sendCount_append (a b : Trace) : sendCount (a ++ b) = sendCount a + sendCount b := by
  induction a with
  | nil => simp [sendCount]
  | cons ev rest ih =>
    cases ev with
    | send request response => simp [sendCount, ih]; omega
    | paginationFromHeaders headers => simp [sendCount, ih]

/-- The events `Builds` adds to the trace: its one `Send`, followed by the consultation of
`paginationFromHeaders` when that `Send` succeeded. -/
theorem Builds_trace (QueryParams : Page → Values)
    (paginationFromHeaders : Header → Pagination × Option Error)
    (cl : client) (page : Page) (tr : Trace) :
    (cl.Builds QueryParams paginationFromHeaders page tr).2
      = tr ++ (Event.send
                  { RequestName := atc.ListBuilds, Query := QueryParams page }
                  (some { Result := some (.builds none), Headers := some [] })
          :: (match (cl.connection.respond tr
                  { RequestName := atc.ListBuilds, Query := QueryParams page }
                  (some { Result := some (.builds none), Headers := some [] })).1 with
              | none => [Event.paginationFromHeaders (readHeaders [] (cl.connection.respond tr
                  { RequestName := atc.ListBuilds, Query := QueryParams page }
                  (some { Result := some (.builds none), Headers := some [] })).2)]
              | some _ => [])) := by
  simp only [client.Builds, Connection.Send]
  split
  · split <;> simp
  · simp

/-- The events `CreateBuild` adds to the trace: nothing when the plan is not encoded, its
one `Send` otherwise. -/
theorem CreateBuild_trace {Plan : Type} (Encode : Plan → String × Option Error)
    (cl : client) (plan : Plan) (tr : Trace) :
    (cl.CreateBuild Encode plan tr).2
      = tr ++ (match (Encode plan).2 with
          | some _ => []
          | none => [Event.send
              { RequestName := atc.CreateBuild, Body := some (Encode plan).1,
                Header := [("Content-Type", ["application/json"])] }
              (some { Result := some (.build zeroBuild) })]) := by
  cases henc : (Encode plan).2 with
  | none => rw [CreateBuild_eq Encode cl plan tr henc]
  | some e =>
    rcases hE : Encode plan with ⟨buffer, err⟩
    rw [hE] at henc
    simp only at henc
    subst henc
    simp [client.CreateBuild, hE]

/-- C11: for every input, every history and every behaviour of the connection, the events
that a call of `CreateBuild`, `CreateJobBuild`, `JobBuild`, `Build`, `Builds`, `AbortBuild`
or `FindTeam` adds to the trace contain at most one `Send`: no operation invokes `Send` a
second time, whatever the first invocation returned. -/
theorem at_most_one_send {Plan : Type} (Encode : Plan → String × Option Error)
    (QueryParams : Page → Values)
    (paginationFromHeaders : Header → Pagination × Option Error)
    (cl : client) (tr : Trace) (plan : Plan) (page : Page)
    (buildID pipelineName jobName buildName teamName : String) :
    (∃ evs, (cl.CreateBuild Encode plan tr).2 = tr ++ evs ∧ sendCount evs ≤ 1)
    ∧ (∃ evs, (cl.CreateJobBuild pipelineName jobName tr).2 = tr ++ evs ∧ sendCount evs ≤ 1)
    ∧ (∃ evs, (cl.JobBuild pipelineName jobName buildName tr).2 = tr ++ evs
          ∧ sendCount evs ≤ 1)
    ∧ (∃ evs, (cl.Build buildID tr).2 = tr ++ evs ∧ sendCount evs ≤ 1)
    ∧ (∃ evs, (cl.Builds QueryParams paginationFromHeaders page tr).2 = tr ++ evs
          ∧ sendCount evs ≤ 1)
    ∧ (∃ evs, (cl.AbortBuild buildID tr).2 = tr ++ evs ∧ sendCount evs ≤ 1)
    ∧ (∃ evs, (cl.FindTeam teamName tr).2 = tr ++ evs ∧ sendCount evs ≤ 1) := by
  refine ⟨?_, ?_, ?_, ?_, ?_, ?_, ?_⟩
  · refine ⟨_, CreateBuild_trace Encode cl plan tr, ?_⟩
    cases (Encode plan).2 <;> simp [sendCount]
  · exact ⟨_, by rw [CreateJobBuild_eq], by simp [sendCount]⟩
  · by_cases hp : pipelineName = ""
    · exact ⟨[], by simp [client.JobBuild, hp], by simp [sendCount]⟩
    · exact ⟨_, by rw [JobBuild_eq cl pipelineName jobName buildName tr hp],
        by simp [sendCount]⟩
  · exact ⟨_, by rw [Build_eq], by simp [sendCount]⟩
  · refine ⟨_, Builds_trace QueryParams paginationFromHeaders cl page tr, ?_⟩
    cases (cl.connection.respond tr
        { RequestName := atc.ListBuilds, Query := QueryParams page }
        (some { Result := some (.builds none), Headers := some [] })).1 <;> simp [sendCount]
  · exact ⟨[Event.send
        { RequestName := atc.AbortBuild, Params := [("build_id", buildID)] } none],
      rfl, by simp [sendCount]⟩
  · refine ⟨[Event.send
        { RequestName := atc.GetTeam, Params := [("team_name", teamName)] }
        (some { Result := some (.team zeroTeam) })], ?_, by simp [sendCount]⟩
    simp only [client.FindTeam, Connection.Send]
    split <;> rfl

end concourse

namespace concourse

/-! ## Errors of `CreateBuild` -/

/-- The conversion `CreateBuild` attempts: for every plan that is encoded, when the error of
`connection.Send` is an `UnexpectedResponseError` whose `StatusCode` is 404, `CreateBuild`
returns a non-nil error that is the hard error with message "build not found" (built by
`errors.New`), in place of the error of `Send`. -/
theorem CreateBuild_unexpected_404 {Plan : Type} (Encode : Plan → String × Option Error)
    (cl : client) (plan : Plan) (tr : Trace) (status body msg : String)
    (henc : (Encode plan).2 = none)
    (hsend : (cl.connection.respond tr
        { RequestName := atc.CreateBuild, Body := some (Encode plan).1,
          Header := [("Content-Type", ["application/json"])] }
        (some { Result := some (.build zeroBuild) })).1
      = some (.UnexpectedResponseError http.StatusNotFound status body msg)) :
    (cl.CreateBuild Encode plan tr).1.2 = some (.errorString "build not found")
    ∧ ∃ e, (cl.CreateBuild Encode plan tr).1.2 = some e ∧ e.Error = "build not found" := by
  have h : (cl.CreateBuild Encode plan tr).1.2 = some (.errorString "build not found") := by
    rw [CreateBuild_eq Encode cl plan tr henc, hsend]
    simp
  exact ⟨h, _, h, rfl⟩

theorem CreateBuild_unexpected_404_witness :
    (encodeSamplePlan (.task "unit")).2 = none
    ∧ (unexpected404Connection.respond []
        { RequestName := atc.CreateBuild, Body := some (encodeSamplePlan (.task "unit")).1,
          Header := [("Content-Type", ["application/json"])] }
        (some { Result := some (.build zeroBuild) })).1
      = some (.UnexpectedResponseError 404 "404 Not Found" "" "Unexpected Response")
    ∧ (client.CreateBuild encodeSamplePlan ⟨unexpected404Connection⟩ (.task "unit") []).1.2
      = some (.errorString "build not found") :=
  ⟨rfl, rfl,
   (CreateBuild_unexpected_404 encodeSamplePlan ⟨unexpected404Connection⟩ (.task "unit") []
      "404 Not Found" "" "Unexpected Response" rfl rfl).1⟩

/-- C13: for every plan that is encoded and every error e of `connection.Send` (nil
included) that is not an `UnexpectedResponseError` with `StatusCode` 404, `CreateBuild`
returns exactly e; in particular a `ResourceNotFoundError` and an
`UnexpectedResponseError` with another status code come back unchanged, status code
included. -/
theorem CreateBuild_error_unchanged {Plan : Type} (Encode : Plan → String × Option Error)
    (cl : client) (plan : Plan) (tr : Trace) (e : Option Error)
    (henc : (Encode plan).2 = none)
    (hsend : (cl.connection.respond tr
        { RequestName := atc.CreateBuild, Body := some (Encode plan).1,
          Header := [("Content-Type", ["application/json"])] }
        (some { Result := some (.build zeroBuild) })).1 = e)
    (hne : ∀ status body msg,
        e ≠ some (.UnexpectedResponseError http.StatusNotFound status body msg)) :
    (cl.CreateBuild Encode plan tr).1.2 = e := by
  rw [CreateBuild_eq Encode cl plan tr henc, hsend]
  cases e with
  | none => rfl
  | some err =>
    cases err with
    | UnexpectedResponseError code status body msg =>
      have hcode : code ≠ http.StatusNotFound := by
        intro hc
        subst hc
        exact hne status body msg rfl
      simp [hcode]
    | _ => rfl

theorem CreateBuild_error_unchanged_witness :
    (client.CreateBuild encodeSamplePlan ⟨unexpected500Connection⟩ (.task "unit") []).1.2
      = some (.UnexpectedResponseError 500 "500 Internal Server Error" "oops"
          "Unexpected Response")
    ∧ (client.CreateBuild encodeSamplePlan ⟨absentConnection⟩ (.task "unit") []).1.2
      = some (.ResourceNotFoundError "resource not found")
    ∧ (client.CreateBuild encodeSamplePlan ⟨servingConnection⟩ (.task "unit") []).1.2
      = none :=
  ⟨CreateBuild_error_unchanged encodeSamplePlan ⟨unexpected500Connection⟩ (.task "unit") []
      (some (.UnexpectedResponseError 500 "500 Internal Server Error" "oops"
          "Unexpected Response")) rfl rfl
      (by intro _ _ _ h; simp [http.StatusNotFound] at h),
   CreateBuild_error_unchanged encodeSamplePlan ⟨absentConnection⟩ (.task "unit") []
      (some (.ResourceNotFoundError "resource not found")) rfl rfl
      (by intro _ _ _ h; cases h),
   CreateBuild_error_unchanged encodeSamplePlan ⟨servingConnection⟩ (.task "unit") []
      none rfl rfl (by intro _ _ _ h; cases h)⟩

end concourse

namespace concourse

/-! ## Path parameters -/

/-- Looking a key up in a Params literal, entry by entry. -/
theorem lookup_cons_params (k a v : String) (rest : Params) :
    List.lookup k ((a, v) :: rest) = if k = a then some v else List.lookup k rest := by
  by_cases h : k = a
  · simp [List.lookup, h]
  · have hb : (k == a) = false := by simp [h]
    simp [List.lookup, hb, h]

/-- C14: `Build` sends `atc.GetBuild` with Params exactly (build_id: buildID); `JobBuild`
with a non-empty pipeline name sends `atc.GetJobBuild` with exactly (job_name: jobName,
build_name: buildName, pipeline_name: pipelineName); `CreateJobBuild` sends
`atc.CreateJobBuild` with exactly (job_name: jobName, pipeline_name: pipelineName).  Each
is the one request of the call, and looking any key up in its Params gives the caller's
argument for the listed keys and nothing for every other key. -/
theorem params_bound_to_arguments (cl : client) (tr : Trace)
    (buildID pipelineName jobName buildName : String) :
    (∃ req resp, (cl.Build buildID tr).2 = tr ++ [Event.send req resp]
        ∧ req.RequestName = atc.GetBuild
        ∧ req.Params = [("build_id", buildID)]
        ∧ ∀ k, req.Params.lookup k = if k = "build_id" then some buildID else none)
    ∧ (pipelineName ≠ "" →
        ∃ req resp, (cl.JobBuild pipelineName jobName buildName tr).2
            = tr ++ [Event.send req resp]
          ∧ req.RequestName = atc.GetJobBuild
          ∧ req.Params = [("job_name", jobName), ("build_name", buildName),
                          ("pipeline_name", pipelineName)]
          ∧ ∀ k, req.Params.lookup k =
              if k = "job_name" then some jobName
              else if k = "build_name" then some buildName
              else if k = "pipeline_name" then some pipelineName
              else none)
    ∧ (∃ req resp, (cl.CreateJobBuild pipelineName jobName tr).2
            = tr ++ [Event.send req resp]
        ∧ req.RequestName = atc.CreateJobBuild
        ∧ req.Params = [("job_name", jobName), ("pipeline_name", pipelineName)]
        ∧ ∀ k, req.Params.lookup k =
            if k = "job_name" then some jobName
            else if k = "pipeline_name" then some pipelineName
            else none) := by
  refine ⟨?_, ?_, ?_⟩
  · refine ⟨_, _, by rw [Build_eq], rfl, rfl, ?_⟩
    intro k
    dsimp only
    repeat rw [lookup_cons_params]
    rfl
  · intro hp
    refine ⟨_, _, by rw [JobBuild_eq cl pipelineName jobName buildName tr hp], rfl, rfl, ?_⟩
    intro k
    dsimp only
    repeat rw [lookup_cons_params]
    rfl
  · refine ⟨_, _, by rw [CreateJobBuild_eq], rfl, rfl, ?_⟩
    intro k
    dsimp only
    repeat rw [lookup_cons_params]
    rfl

theorem params_bound_to_arguments_witness :
    "main" ≠ ""
    ∧ ∃ req resp, (client.JobBuild ⟨servingConnection⟩ "main" "unit" "7" []).2
          = [] ++ [Event.send req resp]
        ∧ req.RequestName = atc.GetJobBuild
        ∧ req.Params = [("job_name", "unit"), ("build_name", "7"), ("pipeline_name", "main")]
        ∧ ∀ k, req.Params.lookup k =
            if k = "job_name" then some "unit"
            else if k = "build_name" then some "7"
            else if k = "pipeline_name" then some "main"
            else none :=
  ⟨by decide,
   (params_bound_to_arguments ⟨servingConnection⟩ [] "42" "main" "unit" "7").2.1 (by decide)⟩

end concourse

namespace concourse

/-! ## `FindTeam` -/

/-- C15: for every teamName, `FindTeam` sends `atc.GetTeam` with Params
(team_name: teamName) and the team variable as result target; if `Send` returns a non-nil
error e, whatever its dynamic type (a `ResourceNotFoundError` included), `FindTeam`
returns a nil Team and e itself; if `Send` returns nil it returns a nil error and a team
whose name and auth are the Name and Auth of the decoded `atc.Team` and whose connection
is the connection of the client. -/
theorem FindTeam_spec (cl : client) (teamName : String) (tr : Trace) :
    (cl.FindTeam teamName tr).2
        = tr ++ [Event.send
            { RequestName := atc.GetTeam, Params := [("team_name", teamName)] }
            (some { Result := some (.team zeroTeam) })]
    ∧ (∀ e, (cl.connection.respond tr
            { RequestName := atc.GetTeam, Params := [("team_name", teamName)] }
            (some { Result := some (.team zeroTeam) })).1 = some e →
        (cl.FindTeam teamName tr).1 = (none, some e))
    ∧ ((cl.connection.respond tr
            { RequestName := atc.GetTeam, Params := [("team_name", teamName)] }
            (some { Result := some (.team zeroTeam) })).1 = none →
        (cl.FindTeam teamName tr).1
            = (some
                { name := (readTeam zeroTeam (cl.connection.respond tr
                    { RequestName := atc.GetTeam, Params := [("team_name", teamName)] }
                    (some { Result := some (.team zeroTeam) })).2).Name,
                  connection := cl.connection,
                  auth := (readTeam zeroTeam (cl.connection.respond tr
                    { RequestName := atc.GetTeam, Params := [("team_name", teamName)] }
                    (some { Result := some (.team zeroTeam) })).2).Auth },
               none)
        ∧ ∀ t h, (cl.connection.respond tr
                { RequestName := atc.GetTeam, Params := [("team_name", teamName)] }
                (some { Result := some (.team zeroTeam) })).2
              = some { Result := some (.team t), Headers := h } →
            (cl.FindTeam teamName tr).1
              = (some { name := t.Name, connection := cl.connection, auth := t.Auth },
                 none)) := by
  refine ⟨?_, ?_, ?_⟩
  · simp only [client.FindTeam, Connection.Send]
    split <;> rfl
  · intro e he
    simp only [client.FindTeam, Connection.Send, he]
  · intro hs
    refine ⟨by simp only [client.FindTeam, Connection.Send, hs], ?_⟩
    intro t h hout
    simp only [client.FindTeam, Connection.Send, hs, hout, readTeam]

theorem FindTeam_spec_witness :
    (client.FindTeam ⟨absentConnection⟩ "ghosts" []).1
        = (none, some (.ResourceNotFoundError "resource not found"))
    ∧ (client.FindTeam ⟨teamConnection⟩ "main" []).1
        = (some { name := "main", connection := teamConnection,
                  auth := [("owner", ["local:admin"])] }, none) :=
  ⟨(FindTeam_spec ⟨absentConnection⟩ "ghosts" []).2.1 _ rfl,
   ((FindTeam_spec ⟨teamConnection⟩ "main" []).2.2 rfl).2
      { ID := 1, Name := "main", Auth := [("owner", ["local:admin"])] } none rfl⟩

end concourse

namespace concourse

/-! ## Argument validation -/

/-- C16: `CreateJobBuild` validates nothing: for every pipelineName and jobName, the empty
string included for either, it invokes `connection.Send` exactly once (the trace gains that
one event) and returns exactly the pair of the build `Send` left in the result target and
the error `Send` returned; `JobBuild` with an empty pipeline name dispatches nothing. -/
theorem CreateJobBuild_no_validation (cl : client) (tr : Trace)
    (pipelineName jobName buildName : String) :
    (cl.CreateJobBuild pipelineName jobName tr).2
        = tr ++ [Event.send
            { RequestName := atc.CreateJobBuild,
              Params := [("job_name", jobName), ("pipeline_name", pipelineName)] }
            (some { Result := some (.build zeroBuild) })]
    ∧ sendCount (cl.CreateJobBuild pipelineName jobName tr).2 = sendCount tr + 1
    ∧ (cl.CreateJobBuild pipelineName jobName tr).1
        = (readBuild zeroBuild (cl.connection.respond tr
              { RequestName := atc.CreateJobBuild,
                Params := [("job_name", jobName), ("pipeline_name", pipelineName)] }
              (some { Result := some (.build zeroBuild) })).2,
           (cl.connection.respond tr
              { RequestName := atc.CreateJobBuild,
                Params := [("job_name", jobName), ("pipeline_name", pipelineName)] }
              (some { Result := some (.build zeroBuild) })).1)
    ∧ (cl.CreateJobBuild "" "" tr).2
        = tr ++ [Event.send
            { RequestName := atc.CreateJobBuild,
              Params := [("job_name", ""), ("pipeline_name", "")] }
            (some { Result := some (.build zeroBuild) })]
    ∧ (cl.JobBuild "" jobName buildName tr).2 = tr
    ∧ sendCount (cl.JobBuild "" jobName buildName tr).2 = sendCount tr := by
  refine ⟨rfl, ?_, rfl, rfl, ?_, ?_⟩
  · rw [CreateJobBuild_eq, sendCount_append]
    rfl
  · simp [client.JobBuild]
  · simp [client.JobBuild]

/-- C17: the validation of `JobBuild` before dispatch looks at pipelineName only: it
returns `NameRequiredError("pipeline")` with the trace unchanged (no `Send`) if and only if
pipelineName is the empty string; for a non-empty pipelineName the request is dispatched
with jobName and buildName bound as given, the empty string included. -/
theorem JobBuild_validates_pipeline_only (cl : client) (tr : Trace)
    (pipelineName jobName buildName : String) :
    (((cl.JobBuild pipelineName jobName buildName tr).2 = tr
        ∧ (cl.JobBuild pipelineName jobName buildName tr).1.2.2
            = some (NameRequiredError "pipeline"))
      ↔ pipelineName = "")
    ∧ (pipelineName ≠ "" →
        (cl.JobBuild pipelineName jobName buildName tr).2
            = tr ++ [Event.send
                { RequestName := atc.GetJobBuild,
                  Params := [("job_name", jobName), ("build_name", buildName),
                             ("pipeline_name", pipelineName)] }
                (some { Result := some (.build zeroBuild) })]
        ∧ (cl.JobBuild pipelineName "" "" tr).2
            = tr ++ [Event.send
                { RequestName := atc.GetJobBuild,
                  Params := [("job_name", ""), ("build_name", ""),
                             ("pipeline_name", pipelineName)] }
                (some { Result := some (.build zeroBuild) })]) := by
  refine ⟨⟨?_, ?_⟩, ?_⟩
  · rintro ⟨htr, -⟩
    by_contra hp
    rw [JobBuild_eq cl pipelineName jobName buildName tr hp] at htr
    have hlen := congrArg List.length htr
    simp at hlen
  · intro hp
    subst hp
    simp [client.JobBuild]
  · intro hp
    exact ⟨by rw [JobBuild_eq cl pipelineName jobName buildName tr hp],
      by rw [JobBuild_eq cl pipelineName "" "" tr hp]⟩

theorem JobBuild_validates_pipeline_only_witness :
    "main" ≠ ""
    ∧ (client.JobBuild ⟨servingConnection⟩ "main" "" "" []).2
        = [] ++ [Event.send
            { RequestName := atc.GetJobBuild,
              Params := [("job_name", ""), ("build_name", ""), ("pipeline_name", "main")] }
            (some { Result := some (.build zeroBuild) })]
    ∧ (client.JobBuild ⟨servingConnection⟩ "main" "" "" []).1.2.1 = true :=
  ⟨by decide,
   ((JobBuild_validates_pipeline_only ⟨servingConnection⟩ [] "main" "unit" "7").2
      (by decide)).2,
   rfl⟩

/-! ## A plan that cannot be encoded -/

/-- C18: for every plan whose JSON encoding fails with error e, `CreateBuild` returns the
zero Build and an error whose message is "Unable to marshal plan: " followed by the
message of e, and the trace is left as it was: `connection.Send` is not invoked. -/
theorem CreateBuild_marshal_failure {Plan : Type} (Encode : Plan → String × Option Error)
    (cl : client) (plan : Plan) (tr : Trace) (e : Error)
    (henc : (Encode plan).2 = some e) :
    (cl.CreateBuild Encode plan tr).1.1 = zeroBuild
    ∧ (∃ err, (cl.CreateBuild Encode plan tr).1.2 = some err
        ∧ err.Error = "Unable to marshal plan: " ++ e.Error)
    ∧ (cl.CreateBuild Encode plan tr).2 = tr
    ∧ sendCount (cl.CreateBuild Encode plan tr).2 = sendCount tr := by
  rcases hE : Encode plan with ⟨buffer, err⟩
  rw [hE] at henc
  simp only at henc
  subst henc
  have h : cl.CreateBuild Encode plan tr
      = ((zeroBuild, some (.errorString ("Unable to marshal plan: " ++ e.Error))), tr) := by
    simp only [client.CreateBuild, hE]
  rw [h]
  exact ⟨rfl, ⟨_, rfl, rfl⟩, rfl, rfl⟩

theorem CreateBuild_marshal_failure_witness :
    (encodeSamplePlan .unencodable).2
        = some (.other "*json.UnsupportedTypeError" "json: unsupported type")
    ∧ client.CreateBuild encodeSamplePlan ⟨servingConnection⟩ .unencodable []
        = ((zeroBuild,
            some (.errorString "Unable to marshal plan: json: unsupported type")), [])
    ∧ (client.CreateBuild encodeSamplePlan ⟨servingConnection⟩ .unencodable []).2 = [] :=
  ⟨rfl, rfl,
   (CreateBuild_marshal_failure encodeSamplePlan ⟨servingConnection⟩ .unencodable []
      (.other "*json.UnsupportedTypeError" "json: unsupported type") rfl).2.2.1⟩

end concourse
